import Mathlib

/-!
Verification of the greenhouse-simulator repository (Go).

Shallow embedding conventions:
* Go `float64` arithmetic is modelled with exact rationals (`ℚ`);
  `math.Max` / `math.Min` / `math.Abs` become `max` / `min` / `|·|`.
* `time.Time` values are modelled as abstract `Nat` timestamps supplied by the
  caller (`time.Now()` becomes an explicit `now` argument).
* Go methods mutating a struct through a pointer become pure functions
  `State → State`; fallible Go functions returning `(T, error)` become
  `Except String T` carrying the literal Go error message.
* Go maps are modelled as association lists; iteration over a Go slice is a
  fold in the slice's order.
-/

namespace Greenhouse

/-- `PlantType` from `internal/models` (plant.go): the per-species
configuration record. All numeric fields are Go `float64`, modelled as `ℚ`. -/
structure PlantType where
  Name : String
  OptimalSaturation : ℚ
  MinSaturation : ℚ
  MaxSaturation : ℚ
  BaseGrowthRate : ℚ
  SaturationDepletion : ℚ
  HealthDegradationRate : ℚ
  HealthEnhancementRate : ℚ
deriving DecidableEq, Repr

/-- `Plant` from `internal/models` (plant.go). `CreatedAt` (Go `time.Time`)
is modelled as an abstract `Nat` timestamp. -/
structure Plant where
  ID : String
  Ty : PlantType
  SectionID : String
  SoilSaturation : ℚ
  Health : ℚ
  GrowthStage : ℚ
  Alive : Bool
  CreatedAt : Nat
deriving DecidableEq, Repr

/-- `NewPlant` from plant.go: the validating constructor. Each guard and its
error string mirrors the Go source in order. `now` stands for `time.Now()`. -/
def NewPlant (id : String) (plantType : PlantType) (sectionID : String)
    (initialSaturation : ℚ) (now : Nat) : Except String Plant :=
  if id = "" then Except.error ("id cannot be empty")
  else if sectionID = "" then Except.error ("sectionID cannot be empty")
  else if initialSaturation < 0 ∨ initialSaturation > 1 then
    Except.error ("initial saturation must be between 0.0 and 1.0")
  else if plantType.Name = "" then Except.error ("plant type must have a name")
  else if plantType.OptimalSaturation < 0 ∨ plantType.OptimalSaturation > 1 then
    Except.error ("plant type optimal saturation must be between 0.0 and 1.0")
  else if plantType.MinSaturation < 0 ∨ plantType.MinSaturation > 1 then
    Except.error ("plant type min saturation must be between 0.0 and 1.0")
  else if plantType.MaxSaturation < 0 ∨ plantType.MaxSaturation > 1 then
    Except.error ("plant type max saturation must be between 0.0 and 1.0")
  else if plantType.BaseGrowthRate < 0 ∨ plantType.BaseGrowthRate > 1 then
    Except.error ("plant type base growth rate must be between 0.0 and 1.0")
  else if plantType.SaturationDepletion < 0 ∨ plantType.SaturationDepletion > 1 then
    Except.error ("plant type saturation depletion rate must be between 0.0 and 1.0")
  else if plantType.HealthDegradationRate < 0 ∨ plantType.HealthDegradationRate > 1 then
    Except.error ("plant type health degradation rate must be between 0.0 and 1.0")
  else if plantType.HealthEnhancementRate < 0 ∨ plantType.HealthEnhancementRate > 1 then
    Except.error ("plant type health enhancement rate must be between 0.0 and 1.0")
  else Except.ok
    { ID := id
      Ty := plantType
      SectionID := sectionID
      SoilSaturation := initialSaturation
      Health := 1
      GrowthStage := 0
      Alive := true
      CreatedAt := now }

/-- `GROWTH_SLOW_FACTOR = 1.35` from plant.go. -/
def GROWTH_SLOW_FACTOR : ℚ := 1.35

/-- `GROWTH_OPTIMAL_FACTOR = 1.25` from plant.go. -/
def GROWTH_OPTIMAL_FACTOR : ℚ := 1.25

/-- `outOfOptimalSaturationRange` from plant.go, as a decidable
proposition. -/
def outOfOptimalSaturationRange (p : Plant) : Prop :=
  p.SoilSaturation < p.Ty.MinSaturation ∨ p.SoilSaturation > p.Ty.MaxSaturation

instance (p : Plant) : Decidable (outOfOptimalSaturationRange p) := by
  unfold outOfOptimalSaturationRange
  infer_instance

/-- `degradeHealth` from plant.go: `p.Health = math.Max(p.Health - rate, 0)`. -/
def degradeHealth (p : Plant) : Plant :=
  { p with Health := max (p.Health - p.Ty.HealthDegradationRate) 0 }

/-- `enhanceHealth` from plant.go: `p.Health = math.Min(p.Health + rate, 1)`. -/
def enhanceHealth (p : Plant) : Plant :=
  { p with Health := min (p.Health + p.Ty.HealthEnhancementRate) 1 }

/-- `updateGrowthStage` from plant.go. The shadowed `growthRate` locals mirror
the Go `growthRate /= 1.35` and `growthRate *= 1.25` statements in order. -/
def updateGrowthStage (p : Plant) : Plant :=
  if p.Health < 0.3 then p
  else
    let growthRate := p.Ty.BaseGrowthRate
    let growthRate := if p.Health < 0.5 then growthRate / GROWTH_SLOW_FACTOR else growthRate
    let growthRate :=
      if |p.SoilSaturation - p.Ty.OptimalSaturation| < 0.15
        then growthRate * GROWTH_OPTIMAL_FACTOR else growthRate
    { p with GrowthStage := min (p.GrowthStage + growthRate) 1 }

/-- `updateSoilSaturation` from plant.go. -/
def updateSoilSaturation (p : Plant) : Plant :=
  { p with SoilSaturation := max (p.SoilSaturation - p.Ty.SaturationDepletion) 0 }

/-- The health-update branch of `OnTick` (the `if/else` over
`outOfOptimalSaturationRange` in plant.go). -/
def healthStep (p : Plant) : Plant :=
  if outOfOptimalSaturationRange p then degradeHealth p else enhanceHealth p

/-- `OnTick` from plant.go: dead plants are untouched; otherwise health is
updated, a death check runs (short-circuiting the tick), then growth and
saturation are updated in that order. -/
def OnTick (p : Plant) : Plant :=
  if !p.Alive then p
  else
    let p1 := healthStep p
    if p1.Health ≤ 0 then { p1 with Alive := false }
    else updateSoilSaturation (updateGrowthStage p1)

/-- The `Tomato` plant type instantiated in main.go. -/
def tomatoType : PlantType :=
  { Name := "Tomato"
    OptimalSaturation := 0.6
    MinSaturation := 0.3
    MaxSaturation := 0.8
    BaseGrowthRate := 0.05
    SaturationDepletion := 0.04
    HealthDegradationRate := 0.08
    HealthEnhancementRate := 0.03 }

/-- A nearly-dead tomato: saturation 0.1 (below min 0.3), health 0.01, so one
tick degrades health to 0 and kills the plant. -/
def dyingTomato : Plant :=
  { ID := "tomato-1"
    Ty := tomatoType
    SectionID := "section-A"
    SoilSaturation := 0.1
    Health := 0.01
    GrowthStage := 0.2
    Alive := true
    CreatedAt := 0 }

/-- A healthy tomato inside its optimal band: saturation 0.5 ∈ [0.3, 0.8]. -/
def growingTomato : Plant :=
  { ID := "tomato-2"
    Ty := tomatoType
    SectionID := "section-A"
    SoilSaturation := 0.5
    Health := 0.9
    GrowthStage := 0.2
    Alive := true
    CreatedAt := 0 }

/-- A dead tomato, for the frozen-state theorems. -/
def deadTomato : Plant :=
  { ID := "tomato-3"
    Ty := tomatoType
    SectionID := "section-A"
    SoilSaturation := 0.25
    Health := 0
    GrowthStage := 0.4
    Alive := false
    CreatedAt := 0 }

/-- A `PlantType` whose saturation fields are all inside `[0,1]` but violate
the ordering `MinSaturation ≤ OptimalSaturation ≤ MaxSaturation`. -/
def badOrderType : PlantType :=
  { Name := "Cactus"
    OptimalSaturation := 0.1
    MinSaturation := 0.9
    MaxSaturation := 0.5
    BaseGrowthRate := 0.05
    SaturationDepletion := 0.04
    HealthDegradationRate := 0.08
    HealthEnhancementRate := 0.03 }

/-- Whether an `Except` carries a success. -/
def exceptOk {α : Type} : Except String α → Bool
  | Except.ok _ => true
  | Except.error _ => false

/-- `SensorType` from `internal/models` (plant_data_source.go models). -/
inductive SensorType where
  | SoilMoisture
  | Temperature
  | Light
  | Humidity
deriving DecidableEq, Repr

/-- `Sensor` from `internal/models`. The Go field `Type` is called `Ty` here
(`Type` is a Lean keyword). -/
structure Sensor where
  ID : String
  Ty : SensorType
  SectionID : String
deriving DecidableEq, Repr

/-- `SensorReading` from `internal/models`; `Timestamp` is the abstract `Nat`
time model. -/
structure SensorReading where
  SensorID : String
  Timestamp : Nat
  Value : ℚ
deriving DecidableEq, Repr

/-- Lookup in the association-list model of the Go map `sensorsByID`. -/
def lookupSensor : List (String × Sensor) → String → Option Sensor
  | [], _ => none
  | (k, v) :: rest, sid => if k = sid then some v else lookupSensor rest sid

/-- The Go statement
`s.sensorsBySection[id] = append(s.sensorsBySection[id], sensor)` on the
association-list model of the map `sensorsBySection`. -/
def appendSectionSensor :
    List (String × List Sensor) → String → Sensor → List (String × List Sensor)
  | [], sec, sensor => [(sec, [sensor])]
  | (k, l) :: rest, sec, sensor =>
    if k = sec then (k, l ++ [sensor]) :: rest
    else (k, l) :: appendSectionSensor rest sec sensor

/-- The state of `sensorManager` from `internal/sensors/manager.go`.
`plantData` is the injected `PlantDataSource`, modelled by its
`GetPlantsBySectionID` method (a pure section-to-plants map). The
`sync.RWMutex` field has no sequential content and is omitted. -/
structure SensorManagerState where
  sensorsBySection : List (String × List Sensor)
  sensorsByID : List (String × Sensor)
  plantData : String → List Plant

/-- `AddSensor` from manager.go. The Go `sensor == nil` guard has no
counterpart here because the model passes sensors by value. -/
def AddSensor (s : SensorManagerState) (sensor : Sensor) :
    Except String SensorManagerState :=
  if sensor.ID = "" then Except.error ("sensor ID cannot be empty")
  else if sensor.SectionID = "" then Except.error ("sensor section ID cannot be empty")
  else
    match lookupSensor s.sensorsByID sensor.ID with
    | some _ => Except.error ("sensor with ID already exists: " ++ sensor.ID)
    | none =>
      Except.ok
        { s with
          sensorsByID := (sensor.ID, sensor) :: s.sensorsByID
          sensorsBySection := appendSectionSensor s.sensorsBySection sensor.SectionID sensor }

/-- `GetReading` from manager.go (the implemented version, with the injected
plant data source): look the sensor up, fail on an unknown id or an empty
section, otherwise average `SoilSaturation` over every plant of the section
with the Go accumulation loop. `now` stands for `time.Now()`. -/
def GetReading (s : SensorManagerState) (sensorID : String) (now : Nat) :
    Except String SensorReading :=
  match lookupSensor s.sensorsByID sensorID with
  | none => Except.error ("no sensor found for the provided ID: " ++ sensorID)
  | some sensor =>
    let plants := s.plantData sensor.SectionID
    if plants.length = 0 then Except.error ("no plants in section: " ++ sensor.SectionID)
    else
      let total := plants.foldl (fun total p => total + p.SoilSaturation) 0
      let average := total / (plants.length : ℚ)
      Except.ok { SensorID := sensor.ID, Timestamp := now, Value := average }

/-- `GetSectionReadings` from manager.go: the body is
`return nil, errors.New("not implemented")` in every version of the file. -/
def GetSectionReadings (_s : SensorManagerState) (_sectionID : String) :
    Except String (List SensorReading) :=
  Except.error ("not implemented")

/-- `GetAverageSaturation` from manager.go: the body is
`return 0, errors.New("not implemented")` in every version of the file. -/
def GetAverageSaturation (_s : SensorManagerState) (_sectionID : String) :
    Except String ℚ :=
  Except.error ("not implemented")

/-- Registering a sensor and then querying a reading, the composition used to
compare sensors that differ only in their `Type` field. -/
def addSensorThenRead (s : SensorManagerState) (sensor : Sensor)
    (sensorID : String) (now : Nat) : Except String SensorReading :=
  match AddSensor s sensor with
  | Except.error e => Except.error e
  | Except.ok s2 => GetReading s2 sensorID now

/-- The kind of lock taken on a Go `sync.RWMutex`. -/
inductive LockKind where
  | read
  | write
deriving DecidableEq, Repr

/-- The lock the simulator's `Start` tick loop holds around the per-plant
`OnTick` loop. In both versions of the simulator the loop body is
`s.mu.RLock(); for _, plant := range s.plants { plant.OnTick() }; s.mu.RUnlock()`,
a shared read lock on the `sync.RWMutex`. -/
def startTickLoopLock : LockKind := LockKind.read

/-- The lock `GetPlants` and `GetCurrentTick` take: `s.mu.RLock()`. -/
def snapshotReadLock : LockKind := LockKind.read

/-- `sync.RWMutex` exclusion: a held lock blocks a concurrent acquisition
unless both are read locks. -/
def rwMutexExcludes (held acq : LockKind) : Bool :=
  match held, acq with
  | LockKind.read, LockKind.read => false
  | _, _ => true

/-- The sensor of the `TestGetReading` fixture: `sensor-1` over `section-A`. -/
def sensorA : Sensor :=
  { ID := "sensor-1", Ty := SensorType.SoilMoisture, SectionID := "section-A" }

/-- A plant of `testPlantType` shape placed in a section at a given
saturation and aliveness. -/
def mkSectionPlant (pid : String) (sec : String) (sat : ℚ) (alive : Bool) : Plant :=
  { ID := pid
    Ty := tomatoType
    SectionID := sec
    SoilSaturation := sat
    Health := 1
    GrowthStage := 0
    Alive := alive
    CreatedAt := 0 }

/-- The manager state of the `TestGetReading` fixture: `sensor-1` registered
over `section-A`, whose plants have saturations 0.6, 0.8 and 0.7; the third
plant is dead, exercising the inclusion of dead plants in the average. -/
def testManager : SensorManagerState :=
  { sensorsBySection := [("section-A", [sensorA])]
    sensorsByID := [("sensor-1", sensorA)]
    plantData := fun sec =>
      if sec = "section-A" then
        [mkSectionPlant ("plant-1") ("section-A") 0.6 true,
         mkSectionPlant ("plant-2") ("section-A") 0.8 true,
         mkSectionPlant ("plant-3") ("section-A") 0.7 false]
      else [] }

theorem healthStep_Health (p : Plant) :
    (healthStep p).Health =
      (if outOfOptimalSaturationRange p
        then max (p.Health - p.Ty.HealthDegradationRate) 0
        else min (p.Health + p.Ty.HealthEnhancementRate) 1) := by
  unfold healthStep degradeHealth enhanceHealth
  split_ifs <;> rfl

theorem healthStep_GrowthStage (p : Plant) :
    (healthStep p).GrowthStage = p.GrowthStage := by
  unfold healthStep degradeHealth enhanceHealth
  split_ifs <;> rfl

theorem healthStep_SoilSaturation (p : Plant) :
    (healthStep p).SoilSaturation = p.SoilSaturation := by
  unfold healthStep degradeHealth enhanceHealth
  split_ifs <;> rfl

theorem healthStep_Ty (p : Plant) : (healthStep p).Ty = p.Ty := by
  unfold healthStep degradeHealth enhanceHealth
  split_ifs <;> rfl

theorem healthStep_ID (p : Plant) : (healthStep p).ID = p.ID := by
  unfold healthStep degradeHealth enhanceHealth
  split_ifs <;> rfl

theorem healthStep_SectionID (p : Plant) : (healthStep p).SectionID = p.SectionID := by
  unfold healthStep degradeHealth enhanceHealth
  split_ifs <;> rfl

theorem healthStep_CreatedAt (p : Plant) : (healthStep p).CreatedAt = p.CreatedAt := by
  unfold healthStep degradeHealth enhanceHealth
  split_ifs <;> rfl

theorem updateGrowthStage_GrowthStage (p : Plant) :
    (updateGrowthStage p).GrowthStage =
      (if p.Health < 0.3 then p.GrowthStage
       else
        min (p.GrowthStage +
          (if |p.SoilSaturation - p.Ty.OptimalSaturation| < 0.15
            then (if p.Health < 0.5
                    then p.Ty.BaseGrowthRate / GROWTH_SLOW_FACTOR
                    else p.Ty.BaseGrowthRate) * GROWTH_OPTIMAL_FACTOR
            else (if p.Health < 0.5
                    then p.Ty.BaseGrowthRate / GROWTH_SLOW_FACTOR
                    else p.Ty.BaseGrowthRate))) 1) := by
  unfold updateGrowthStage
  split_ifs <;> rfl

theorem updateGrowthStage_SoilSaturation (p : Plant) :
    (updateGrowthStage p).SoilSaturation = p.SoilSaturation := by
  unfold updateGrowthStage
  split_ifs <;> rfl

theorem updateGrowthStage_Health (p : Plant) :
    (updateGrowthStage p).Health = p.Health := by
  unfold updateGrowthStage
  split_ifs <;> rfl

theorem updateGrowthStage_Ty (p : Plant) : (updateGrowthStage p).Ty = p.Ty := by
  unfold updateGrowthStage
  split_ifs <;> rfl

theorem updateGrowthStage_ID (p : Plant) : (updateGrowthStage p).ID = p.ID := by
  unfold updateGrowthStage
  split_ifs <;> rfl

theorem updateGrowthStage_SectionID (p : Plant) :
    (updateGrowthStage p).SectionID = p.SectionID := by
  unfold updateGrowthStage
  split_ifs <;> rfl

theorem updateGrowthStage_CreatedAt (p : Plant) :
    (updateGrowthStage p).CreatedAt = p.CreatedAt := by
  unfold updateGrowthStage
  split_ifs <;> rfl

theorem updateSoilSaturation_SoilSaturation (p : Plant) :
    (updateSoilSaturation p).SoilSaturation =
      max (p.SoilSaturation - p.Ty.SaturationDepletion) 0 := rfl

theorem updateSoilSaturation_Health (p : Plant) :
    (updateSoilSaturation p).Health = p.Health := rfl

theorem updateSoilSaturation_GrowthStage (p : Plant) :
    (updateSoilSaturation p).GrowthStage = p.GrowthStage := rfl

theorem updateSoilSaturation_ID (p : Plant) :
    (updateSoilSaturation p).ID = p.ID := rfl

theorem updateSoilSaturation_Ty (p : Plant) :
    (updateSoilSaturation p).Ty = p.Ty := rfl

theorem updateSoilSaturation_SectionID (p : Plant) :
    (updateSoilSaturation p).SectionID = p.SectionID := rfl

theorem updateSoilSaturation_CreatedAt (p : Plant) :
    (updateSoilSaturation p).CreatedAt = p.CreatedAt := rfl

/-- C8: a plant with `Alive = false` is left exactly unchanged, in every
field, by any number of `OnTick` calls. -/
theorem onTick_dead_is_noop (p : Plant) (h : p.Alive = false) (n : ℕ) :
    OnTick^[n] p = p := by
  have h1 : OnTick p = p := by simp [OnTick, h]
  induction n with
  | zero => rfl
  | succ n ih => rw [Function.iterate_succ_apply, h1, ih]

/-- Witness for C8: five ticks leave the concrete dead tomato unchanged. -/
theorem onTick_dead_is_noop_witness :
    deadTomato.Alive = false ∧ OnTick^[5] deadTomato = deadTomato :=
  ⟨rfl, onTick_dead_is_noop deadTomato rfl 5⟩

/-- C10: `OnTick` never modifies the identity fields `ID`, `Type`,
`SectionID` or `CreatedAt`, whether the plant is alive or dead. -/
theorem onTick_preserves_identity_fields (p : Plant) :
    (OnTick p).ID = p.ID ∧ (OnTick p).Ty = p.Ty ∧
    (OnTick p).SectionID = p.SectionID ∧ (OnTick p).CreatedAt = p.CreatedAt := by
  cases hA : p.Alive with
  | false => simp [OnTick, hA]
  | true =>
    simp only [OnTick, hA, Bool.not_true, Bool.false_eq_true, if_false]
    split_ifs with h
    · exact ⟨healthStep_ID p, healthStep_Ty p, healthStep_SectionID p,
        healthStep_CreatedAt p⟩
    · refine ⟨?_, ?_, ?_, ?_⟩
      · rw [updateSoilSaturation_ID, updateGrowthStage_ID, healthStep_ID]
      · rw [updateSoilSaturation_Ty, updateGrowthStage_Ty, healthStep_Ty]
      · rw [updateSoilSaturation_SectionID, updateGrowthStage_SectionID,
          healthStep_SectionID]
      · rw [updateSoilSaturation_CreatedAt, updateGrowthStage_CreatedAt,
          healthStep_CreatedAt]

/-- C1: for an alive plant, one `OnTick` call updates health to the clamped
degraded value (saturation outside `[min, max]`) or the clamped enhanced
value (saturation inside); whenever that updated health is ≤ 0 the plant is
marked dead and growth stage and soil saturation keep their pre-call
values. -/
theorem onTick_health_update_then_death (p : Plant) (hAlive : p.Alive = true) :
    (OnTick p).Health =
      (if outOfOptimalSaturationRange p
        then max (p.Health - p.Ty.HealthDegradationRate) 0
        else min (p.Health + p.Ty.HealthEnhancementRate) 1) ∧
    ((if outOfOptimalSaturationRange p
        then max (p.Health - p.Ty.HealthDegradationRate) 0
        else min (p.Health + p.Ty.HealthEnhancementRate) 1) ≤ 0 →
      (OnTick p).Alive = false ∧
      (OnTick p).GrowthStage = p.GrowthStage ∧
      (OnTick p).SoilSaturation = p.SoilSaturation) := by
  simp only [OnTick, hAlive, Bool.not_true, Bool.false_eq_true, if_false]
  by_cases h : (healthStep p).Health ≤ 0
  · rw [if_pos h]
    exact ⟨healthStep_Health p,
      fun _ => ⟨rfl, healthStep_GrowthStage p, healthStep_SoilSaturation p⟩⟩
  · rw [if_neg h]
    refine ⟨?_, fun hle => absurd ?_ h⟩
    · rw [updateSoilSaturation_Health, updateGrowthStage_Health, healthStep_Health]
    · rw [healthStep_Health]
      exact hle

/-- Witness for C1: the dying tomato (saturation 0.1 below min 0.3, health
0.01, degradation 0.08) dies in one tick with growth and saturation
frozen. -/
theorem onTick_health_update_then_death_witness :
    dyingTomato.Alive = true ∧ (OnTick dyingTomato).Alive = false ∧
    (OnTick dyingTomato).GrowthStage = dyingTomato.GrowthStage ∧
    (OnTick dyingTomato).SoilSaturation = dyingTomato.SoilSaturation := by
  have h := onTick_health_update_then_death dyingTomato rfl
  refine ⟨rfl, h.2 ?_⟩
  norm_num [outOfOptimalSaturationRange, dyingTomato, tomatoType, max_def]

/-- C2: for a plant that stays alive through the tick, the growth rate starts
at the base rate, is divided by 1.35 below health 0.5, is then multiplied by
1.25 when the (pre-depletion) saturation is within 0.15 of optimal, growth
stage is clamped at 1 and is unchanged below health 0.3; afterwards the
saturation is depleted and clamped at 0. -/
theorem onTick_growth_then_depletion (p : Plant) (hAlive : p.Alive = true)
    (hpos : 0 < (healthStep p).Health) :
    (OnTick p).GrowthStage =
      (if (healthStep p).Health < 0.3 then p.GrowthStage
       else
        min (p.GrowthStage +
          (if |p.SoilSaturation - p.Ty.OptimalSaturation| < 0.15
            then (if (healthStep p).Health < 0.5
                    then p.Ty.BaseGrowthRate / GROWTH_SLOW_FACTOR
                    else p.Ty.BaseGrowthRate) * GROWTH_OPTIMAL_FACTOR
            else (if (healthStep p).Health < 0.5
                    then p.Ty.BaseGrowthRate / GROWTH_SLOW_FACTOR
                    else p.Ty.BaseGrowthRate))) 1) ∧
    (OnTick p).SoilSaturation = max (p.SoilSaturation - p.Ty.SaturationDepletion) 0 := by
  simp only [OnTick, hAlive, Bool.not_true, Bool.false_eq_true, if_false]
  rw [if_neg (not_le.mpr hpos)]
  constructor
  · rw [updateSoilSaturation_GrowthStage, updateGrowthStage_GrowthStage,
      healthStep_SoilSaturation, healthStep_Ty, healthStep_GrowthStage]
  · rw [updateSoilSaturation_SoilSaturation, updateGrowthStage_SoilSaturation,
      updateGrowthStage_Ty, healthStep_SoilSaturation, healthStep_Ty]

/-- Witness for C2: the growing tomato (saturation 0.5, health 0.9) reaches
growth stage 0.2 + 0.05·1.25 = 0.2625 and saturation 0.5 − 0.04 = 0.46. -/
theorem onTick_growth_then_depletion_witness :
    growingTomato.Alive = true ∧ 0 < (healthStep growingTomato).Health ∧
    (OnTick growingTomato).GrowthStage = 0.2625 ∧
    (OnTick growingTomato).SoilSaturation = 0.46 := by
  have hpos : 0 < (healthStep growingTomato).Health := by
    norm_num [healthStep, outOfOptimalSaturationRange, enhanceHealth, degradeHealth,
      growingTomato, tomatoType, min_def]
  have h := onTick_growth_then_depletion growingTomato rfl hpos
  refine ⟨rfl, hpos, ?_, ?_⟩
  · rw [h.1]
    norm_num [healthStep, outOfOptimalSaturationRange, enhanceHealth, degradeHealth,
      growingTomato, tomatoType, min_def, GROWTH_SLOW_FACTOR, GROWTH_OPTIMAL_FACTOR, abs]
  · rw [h.2]
    norm_num [growingTomato, tomatoType, max_def]

theorem goRate_nonneg (base : ℚ) (hbase : 0 ≤ base) (c1 c2 : Prop)
    [Decidable c1] [Decidable c2] :
    0 ≤ (if c2 then (if c1 then base / GROWTH_SLOW_FACTOR else base) * GROWTH_OPTIMAL_FACTOR
         else (if c1 then base / GROWTH_SLOW_FACTOR else base)) := by
  have h1 : 0 ≤ base / GROWTH_SLOW_FACTOR :=
    div_nonneg hbase (by norm_num [GROWTH_SLOW_FACTOR])
  have h2 : (0:ℚ) ≤ GROWTH_OPTIMAL_FACTOR := by norm_num [GROWTH_OPTIMAL_FACTOR]
  split_ifs
  · exact mul_nonneg h1 h2
  · exact mul_nonneg hbase h2
  · exact h1
  · exact hbase

theorem updateGrowthStage_growth_bounds (q : Plant)
    (hbase : 0 ≤ q.Ty.BaseGrowthRate) (hg : q.GrowthStage ≤ 1) :
    q.GrowthStage ≤ (updateGrowthStage q).GrowthStage ∧
      (updateGrowthStage q).GrowthStage ≤ 1 := by
  rw [updateGrowthStage_GrowthStage]
  by_cases h0 : q.Health < 0.3
  · rw [if_pos h0]
    exact ⟨le_refl _, hg⟩
  · rw [if_neg h0]
    exact ⟨le_min (le_add_of_nonneg_right (goRate_nonneg _ hbase _ _)) hg,
      min_le_right _ _⟩

theorem updateSoilSaturation_sat_bounds (q : Plant)
    (hs : 0 ≤ q.SoilSaturation) (hd : 0 ≤ q.Ty.SaturationDepletion) :
    (updateSoilSaturation q).SoilSaturation ≤ q.SoilSaturation ∧
      0 ≤ (updateSoilSaturation q).SoilSaturation := by
  rw [updateSoilSaturation_SoilSaturation]
  exact ⟨max_le (sub_le_self _ hd) hs, le_max_right _ _⟩

/-- C7: while a plant is alive (given its constructor invariants: nonnegative
rates, growth stage at most 1, nonnegative saturation), one tick leaves the
growth stage no smaller and at most 1, and leaves the soil saturation no
larger and at least 0. -/
theorem onTick_monotonic_bounds (p : Plant) (hAlive : p.Alive = true)
    (hbase : 0 ≤ p.Ty.BaseGrowthRate) (hgrow : p.GrowthStage ≤ 1)
    (hsat : 0 ≤ p.SoilSaturation) (hdep : 0 ≤ p.Ty.SaturationDepletion) :
    p.GrowthStage ≤ (OnTick p).GrowthStage ∧ (OnTick p).GrowthStage ≤ 1 ∧
      (OnTick p).SoilSaturation ≤ p.SoilSaturation ∧
      0 ≤ (OnTick p).SoilSaturation := by
  have hqg := healthStep_GrowthStage p
  have hqs := healthStep_SoilSaturation p
  have hqt := healthStep_Ty p
  simp only [OnTick, hAlive, Bool.not_true, Bool.false_eq_true, if_false]
  by_cases h : (healthStep p).Health ≤ 0
  · rw [if_pos h]
    exact ⟨le_of_eq hqg.symm, hqg.le.trans hgrow, le_of_eq hqs, hsat.trans_eq hqs.symm⟩
  · rw [if_neg h]
    have hgb := updateGrowthStage_growth_bounds (healthStep p)
      (by rw [hqt]; exact hbase) (by rw [hqg]; exact hgrow)
    have hsb := updateSoilSaturation_sat_bounds (updateGrowthStage (healthStep p))
      (by rw [updateGrowthStage_SoilSaturation, hqs]; exact hsat)
      (by rw [updateGrowthStage_Ty, hqt]; exact hdep)
    refine ⟨?_, ?_, ?_, ?_⟩
    · calc p.GrowthStage = (healthStep p).GrowthStage := hqg.symm
        _ ≤ (updateGrowthStage (healthStep p)).GrowthStage := hgb.1
        _ = (updateSoilSaturation (updateGrowthStage (healthStep p))).GrowthStage :=
            (updateSoilSaturation_GrowthStage _).symm
    · rw [updateSoilSaturation_GrowthStage]
      exact hgb.2
    · calc (updateSoilSaturation (updateGrowthStage (healthStep p))).SoilSaturation
          ≤ (updateGrowthStage (healthStep p)).SoilSaturation := hsb.1
        _ = p.SoilSaturation := by rw [updateGrowthStage_SoilSaturation, hqs]
    · exact hsb.2

/-- Witness for C7: the growing tomato satisfies the invariants and one tick
keeps its growth stage and saturation inside the claimed bounds. -/
theorem onTick_monotonic_bounds_witness :
    growingTomato.Alive = true ∧ 0 ≤ growingTomato.Ty.BaseGrowthRate ∧
    growingTomato.GrowthStage ≤ 1 ∧ 0 ≤ growingTomato.SoilSaturation ∧
    0 ≤ growingTomato.Ty.SaturationDepletion ∧
    (growingTomato.GrowthStage ≤ (OnTick growingTomato).GrowthStage ∧
      (OnTick growingTomato).GrowthStage ≤ 1 ∧
      (OnTick growingTomato).SoilSaturation ≤ growingTomato.SoilSaturation ∧
      0 ≤ (OnTick growingTomato).SoilSaturation) := by
  refine ⟨rfl, ?_, ?_, ?_, ?_, onTick_monotonic_bounds growingTomato rfl ?_ ?_ ?_ ?_⟩ <;>
    norm_num [growingTomato, tomatoType]

/-- C3 counterexample: `badOrderType` violates the ordering
`MinSaturation ≤ OptimalSaturation ≤ MaxSaturation` (0.9 > 0.1), yet
`NewPlant` accepts it and returns a plant, refuting the claim that such a
`PlantType` is always rejected with an error. -/
theorem newPlant_accepts_unordered_type :
    ¬ (badOrderType.MinSaturation ≤ badOrderType.OptimalSaturation ∧
       badOrderType.OptimalSaturation ≤ badOrderType.MaxSaturation) ∧
    exceptOk (NewPlant ("cactus-1") badOrderType ("section-A") 0.5 0) = true := by
  constructor
  · norm_num [badOrderType]
  · norm_num [NewPlant, badOrderType, exceptOk]
    decide

/-- C3 amended: `NewPlant` validates only range membership, never the
ordering of the saturation fields: whenever the ids and the name are
non-empty and every numeric field lies in `[0,1]`, construction succeeds —
regardless of how `MinSaturation`, `OptimalSaturation` and `MaxSaturation`
are ordered. -/
theorem newPlant_range_checks_only (id sectionID : String) (t : PlantType)
    (sat : ℚ) (now : Nat)
    (hid : id ≠ "") (hsec : sectionID ≠ "")
    (hsat : 0 ≤ sat ∧ sat ≤ 1) (hname : t.Name ≠ "")
    (hopt : 0 ≤ t.OptimalSaturation ∧ t.OptimalSaturation ≤ 1)
    (hmin : 0 ≤ t.MinSaturation ∧ t.MinSaturation ≤ 1)
    (hmax : 0 ≤ t.MaxSaturation ∧ t.MaxSaturation ≤ 1)
    (hbgr : 0 ≤ t.BaseGrowthRate ∧ t.BaseGrowthRate ≤ 1)
    (hdep : 0 ≤ t.SaturationDepletion ∧ t.SaturationDepletion ≤ 1)
    (hdeg : 0 ≤ t.HealthDegradationRate ∧ t.HealthDegradationRate ≤ 1)
    (henh : 0 ≤ t.HealthEnhancementRate ∧ t.HealthEnhancementRate ≤ 1) :
    NewPlant id t sectionID sat now = Except.ok
      { ID := id, Ty := t, SectionID := sectionID, SoilSaturation := sat,
        Health := 1, GrowthStage := 0, Alive := true, CreatedAt := now } := by
  have nsat : ¬(sat < 0 ∨ sat > 1) := by push_neg; exact hsat
  have nopt : ¬(t.OptimalSaturation < 0 ∨ t.OptimalSaturation > 1) := by
    push_neg; exact hopt
  have nmin : ¬(t.MinSaturation < 0 ∨ t.MinSaturation > 1) := by push_neg; exact hmin
  have nmax : ¬(t.MaxSaturation < 0 ∨ t.MaxSaturation > 1) := by push_neg; exact hmax
  have nbgr : ¬(t.BaseGrowthRate < 0 ∨ t.BaseGrowthRate > 1) := by push_neg; exact hbgr
  have ndep : ¬(t.SaturationDepletion < 0 ∨ t.SaturationDepletion > 1) := by
    push_neg; exact hdep
  have ndeg : ¬(t.HealthDegradationRate < 0 ∨ t.HealthDegradationRate > 1) := by
    push_neg; exact hdeg
  have nenh : ¬(t.HealthEnhancementRate < 0 ∨ t.HealthEnhancementRate > 1) := by
    push_neg; exact henh
  unfold NewPlant
  rw [if_neg hid, if_neg hsec, if_neg nsat, if_neg hname, if_neg nopt, if_neg nmin,
    if_neg nmax, if_neg nbgr, if_neg ndep, if_neg ndeg, if_neg nenh]

/-- Witness for the amended C3: the unordered `badOrderType` passes all the
range checks of `NewPlant` and a plant holding it is returned. -/
theorem newPlant_range_checks_only_witness :
    badOrderType.MaxSaturation < badOrderType.MinSaturation ∧
    NewPlant ("cactus-2") badOrderType ("section-A") 0.5 0 = Except.ok
      { ID := "cactus-2", Ty := badOrderType, SectionID := "section-A",
        SoilSaturation := 0.5, Health := 1, GrowthStage := 0, Alive := true,
        CreatedAt := 0 } := by
  refine ⟨by norm_num [badOrderType],
    newPlant_range_checks_only ("cactus-2") ("section-A") badOrderType 0.5 0
      ?_ ?_ ?_ ?_ ?_ ?_ ?_ ?_ ?_ ?_ ?_⟩ <;>
    first
    | decide
    | norm_num [badOrderType]

/-- C4 counterexample: the simulator's tick loop does not hold an exclusive
(write) lock — it holds `mu.RLock()`, a shared read lock, which does not
exclude the concurrent `RLock` readers (`GetPlants`, `GetCurrentTick`). -/
theorem startTickLoopLock_not_exclusive :
    startTickLoopLock ≠ LockKind.write ∧
    rwMutexExcludes startTickLoopLock snapshotReadLock = false := by
  decide

/-- C4 amended: the tick loop holds a shared read lock on the `RWMutex`: it
excludes writers such as `AddPlant`, but not the read-locked snapshot
accessors, so those may run concurrently with a tick in progress and observe
a partially updated plant collection. -/
theorem startTickLoopLock_shared_read :
    startTickLoopLock = LockKind.read ∧
    rwMutexExcludes startTickLoopLock LockKind.write = true ∧
    rwMutexExcludes startTickLoopLock LockKind.read = false := by
  decide

/-- C5: both section-wide queries of the sensor manager unconditionally
return the error `not implemented`, for every manager state and every
section — including valid sections that contain plants — contradicting the
interface contract that non-empty sections yield one reading per sensor and
a mean saturation value. -/
theorem sectionQueries_not_implemented (s : SensorManagerState) (sectionID : String) :
    GetSectionReadings s sectionID = Except.error ("not implemented") ∧
    GetAverageSaturation s sectionID = Except.error ("not implemented") :=
  ⟨rfl, rfl⟩

theorem foldl_add_soilSaturation (l : List Plant) (c : ℚ) :
    l.foldl (fun total p => total + p.SoilSaturation) c
      = c + (l.map Plant.SoilSaturation).sum := by
  induction l generalizing c with
  | nil => simp
  | cons p rest ih =>
    simp only [List.foldl_cons, List.map_cons, List.sum_cons, ih]
    ring

/-- C6: `GetReading` fails for every unregistered sensor id, fails for every
registered sensor whose section holds no plants, and otherwise returns a
reading whose value is the arithmetic mean of `SoilSaturation` over all
plants of the section — dead plants included, since no aliveness filter is
applied. -/
theorem getReading_spec (s : SensorManagerState) (sensorID : String) (now : Nat) :
    (lookupSensor s.sensorsByID sensorID = none →
      GetReading s sensorID now =
        Except.error ("no sensor found for the provided ID: " ++ sensorID)) ∧
    (∀ sensor, lookupSensor s.sensorsByID sensorID = some sensor →
      ((s.plantData sensor.SectionID).length = 0 →
        GetReading s sensorID now =
          Except.error ("no plants in section: " ++ sensor.SectionID)) ∧
      ((s.plantData sensor.SectionID).length ≠ 0 →
        GetReading s sensorID now = Except.ok
          { SensorID := sensor.ID
            Timestamp := now
            Value := ((s.plantData sensor.SectionID).map Plant.SoilSaturation).sum /
              ((s.plantData sensor.SectionID).length : ℚ) })) := by
  refine ⟨fun hnone => ?_, fun sensor hsome => ⟨fun hzero => ?_, fun hnz => ?_⟩⟩
  · unfold GetReading
    rw [hnone]
  · unfold GetReading
    rw [hsome]
    dsimp only
    rw [if_pos hzero]
  · unfold GetReading
    rw [hsome]
    dsimp only
    rw [if_neg hnz, foldl_add_soilSaturation, zero_add]

/-- Witness for C6: in the fixture manager, `sensor-1` over `section-A` with
plant saturations 0.6, 0.8, 0.7 (one of the plants dead) yields the mean
0.7, within the 1e-4 tolerance. -/
theorem getReading_spec_witness :
    lookupSensor testManager.sensorsByID ("sensor-1") = some sensorA ∧
    (testManager.plantData sensorA.SectionID).length ≠ 0 ∧
    GetReading testManager ("sensor-1") 0 =
      Except.ok { SensorID := "sensor-1", Timestamp := 0, Value := 0.7 } ∧
    |(0.7 : ℚ) - 0.7| < 0.0001 := by
  have hlk : lookupSensor testManager.sensorsByID ("sensor-1") = some sensorA := by
    decide
  have hnz : (testManager.plantData sensorA.SectionID).length ≠ 0 := by
    decide
  have h := ((getReading_spec testManager ("sensor-1") 0).2 sensorA hlk).2 hnz
  refine ⟨hlk, hnz, ?_, by norm_num⟩
  rw [h]
  norm_num [testManager, sensorA, mkSectionPlant]

theorem getReading_congr (s1 s2 : SensorManagerState) (sensorID : String) (now : Nat)
    (hpd : s1.plantData = s2.plantData)
    (hlk : Option.map (fun sn => (sn.ID, sn.SectionID)) (lookupSensor s1.sensorsByID sensorID) =
           Option.map (fun sn => (sn.ID, sn.SectionID)) (lookupSensor s2.sensorsByID sensorID)) :
    GetReading s1 sensorID now = GetReading s2 sensorID now := by
  unfold GetReading
  rw [hpd]
  cases h1 : lookupSensor s1.sensorsByID sensorID with
  | none =>
    cases h2 : lookupSensor s2.sensorsByID sensorID with
    | none => rfl
    | some b =>
      rw [h1, h2] at hlk
      simp at hlk
  | some a =>
    cases h2 : lookupSensor s2.sensorsByID sensorID with
    | none =>
      rw [h1, h2] at hlk
      simp at hlk
    | some b =>
      rw [h1, h2] at hlk
      simp only [Option.map_some', Option.some.injEq, Prod.mk.injEq] at hlk
      obtain ⟨hID, hSec⟩ := hlk
      dsimp only
      rw [hSec, hID]

/-- C9: neither `AddSensor` nor `GetReading` consults the sensor's `Type`
field: registering the same sensor with any two sensor types (for example
`Temperature` instead of `SoilMoisture`) and then querying any reading gives
identical outcomes, both on the error path and on the returned reading. -/
theorem sensorType_never_consulted (s : SensorManagerState) (sensor : Sensor)
    (t1 t2 : SensorType) (sensorID : String) (now : Nat) :
    addSensorThenRead s { sensor with Ty := t1 } sensorID now =
      addSensorThenRead s { sensor with Ty := t2 } sensorID now := by
  unfold addSensorThenRead AddSensor
  dsimp only
  by_cases hid : sensor.ID = ""
  · rw [if_pos hid, if_pos hid]
  · rw [if_neg hid, if_neg hid]
    by_cases hsec : sensor.SectionID = ""
    · rw [if_pos hsec, if_pos hsec]
    · rw [if_neg hsec, if_neg hsec]
      cases hlk : lookupSensor s.sensorsByID sensor.ID with
      | some b => rfl
      | none =>
        apply getReading_congr
        · rfl
        · dsimp only
          by_cases hq : sensor.ID = sensorID
          · simp [lookupSensor, hq]
          · simp [lookupSensor, hq]

end Greenhouse
